import Mathlib

/-!
Verification development for the Shaping curriculum wrapper
(neurogym/wrappers/shaping.py, class Shaping).

The wrapper is embedded shallowly: the wrapped gym environment is an
external oracle, so each call to the wrapped environment is modelled by
an explicit response record, and the wrapper itself becomes a pure state
transformer.  Machine floats are modelled by rationals; Python int()
truncation is modelled explicitly.
-/

/-- Python int() applied to a rational: truncation toward zero. -/
def pyInt (x : ℚ) : ℤ := if 0 ≤ x then ⌊x⌋ else ⌈x⌉

/-- np.mean of a list of rationals: sum divided by length. -/
def listMean (l : List ℚ) : ℚ := l.sum / l.length

/-- A timing distribution descriptor, as stored in an environment timing
dict: the distribution kind plus its numeric parameters.  A constant
distribution carries its single duration as a one element parameter
list. -/
abbrev DistDesc := String × List ℚ

/-- The fields of the wrapped environment that the Shaping wrapper reads
or writes (the consumed contract).  The timing dict is an ordered
mapping from period name to distribution descriptor; rewards_correct is
the entry rewards of the correct key of the rewards mapping. -/
structure EnvState where
  dt : ℚ
  tmax : ℚ
  t : ℚ
  t_ind : ℕ
  num_tr : ℕ
  timing : List (String × DistDesc)
  sigma_dt : ℚ
  rewards_correct : ℚ
  performance : ℚ
deriving DecidableEq

/-- The mutable state of a Shaping wrapper instance, one field per
attribute set in Shaping.__init__ (the field called variable in the
source is named varEnabled here because variable is a Lean keyword).
The field r_tmax is the timeout reward term inherited from the wrapper
base class; it is not assigned in the shown source, so it is carried as
part of the state. -/
structure ShapingState where
  env : EnvState
  curr_ph : ℕ
  curr_perf : ℚ
  perf_window : ℕ
  goal_perf : List ℚ
  mov_window : List ℚ
  counter : ℕ
  action : ℕ
  prev_act : ℕ
  max_num_reps : ℕ
  first_choice : Bool
  performance : ℚ
  short : Bool
  varEnabled : Bool
  short_dur : ℚ
  ori_periods : List (String × DistDesc)
  sigma_dt_ori : ℚ
  r_tmax : ℚ
deriving DecidableEq

namespace Shaping

/-- Shaping.__init__: capture the original timing snapshot and jitter
value, convert short_dur to environment step units with Python int()
truncation, and initialise the per-instance state. -/
def init (env : EnvState) (init_ph : ℕ) (max_num_reps : ℕ) (short_dur : ℚ)
    (th : ℚ) (perf_w : ℕ) (r_tmax : ℚ) : ShapingState :=
  { env := env
    curr_ph := init_ph
    curr_perf := 0
    perf_window := perf_w
    goal_perf := List.replicate 5 th
    mov_window := []
    counter := 0
    action := 0
    prev_act := 0
    max_num_reps := max_num_reps
    first_choice := true
    performance := 0
    short := false
    varEnabled := true
    short_dur := ((pyInt (short_dur * env.dt) : ℤ) : ℚ)
    ori_periods := env.timing
    sigma_dt_ori := env.sigma_dt
    r_tmax := r_tmax }

/-- Shaping.count: update the repetition streak.  A neutral action 0 is
ignored; repeating prev_act increments the counter, any other action
resets the counter to 1 and records the new previous action. -/
def count (s : ShapingState) (action : ℕ) : ShapingState :=
  if action ≠ 0 then
    if action = s.prev_act then { s with counter := s.counter + 1 }
    else { s with counter := 1, prev_act := action }
  else s

/-- Shaping.set_phase: record the current trial performance in the
rolling window.  While the window is shorter than perf_window the value
merely accumulates; otherwise the value is appended, the oldest entry
popped, the mean of the resulting window taken, and if the mean reaches
the goal for the current phase the phase is incremented and the window
cleared.  The whole update is guarded by curr_ph < 5. -/
def set_phase (s : ShapingState) : ShapingState :=
  if s.curr_ph < 5 then
    if s.perf_window ≤ s.mov_window.length then
      if s.goal_perf.getD s.curr_ph 0 ≤
          listMean ((s.mov_window ++ [s.performance]).drop 1) then
        { s with mov_window := []
                 curr_perf := listMean ((s.mov_window ++ [s.performance]).drop 1)
                 curr_ph := s.curr_ph + 1 }
      else
        { s with mov_window := (s.mov_window ++ [s.performance]).drop 1
                 curr_perf := listMean ((s.mov_window ++ [s.performance]).drop 1) }
    else { s with mov_window := s.mov_window ++ [s.performance] }
  else s

/-- Keys of ori_periods with the last one dropped: the field
change_periods recomputed at the start of every Shaping.new_trial (the
excluded last period is left untouched by every transformation). -/
def changeKeys (s : ShapingState) : List String :=
  (s.ori_periods.map Prod.fst).dropLast

/-- The environment bookkeeping performed at the top of
Shaping.new_trial: performance, t and t_ind reset, num_tr incremented
(this mirrors what the overwritten core step function would do). -/
def trialEnvReset (e : EnvState) : EnvState :=
  { e with performance := 0, t := 0, t_ind := 0, num_tr := e.num_tr + 1 }

/-- The timing rewrite of the phase 0 and 1 branch of Shaping.new_trial:
every change period of the working copy of the timing dict is set to a
constant distribution of duration short_dur. -/
def installShort (timing : List (String × DistDesc)) (change : List String)
    (sd : ℚ) : List (String × DistDesc) :=
  timing.map fun kv => if kv.1 ∈ change then (kv.1, ("constant", [sd])) else kv

/-- The per-descriptor transformation of the phase 2 and 3 branch of
Shaping.new_trial: a constant distribution is forced to short_dur, any
other distribution has every parameter multiplied by
short_dur / args[0] and then truncated with Python int() to a multiple
of the environment time step dt. -/
def scaleVar (dt sd : ℚ) (d : DistDesc) : DistDesc :=
  if d.1 = "constant" then ("constant", [sd])
  else (d.1, d.2.map fun n => ((pyInt (n * (sd / d.2.headD 0) / dt) : ℤ) : ℚ) * dt)

/-- The timing rewrite of the phase 2 and 3 branch of Shaping.new_trial:
every change period of the working copy of the timing dict is replaced
by the scaled version of its descriptor in the original snapshot
ori_periods. -/
def installVar (timing : List (String × DistDesc))
    (ori : List (String × DistDesc)) (change : List String)
    (dt sd : ℚ) : List (String × DistDesc) :=
  timing.map fun kv =>
    if kv.1 ∈ change then
      match ori.lookup kv.1 with
      | some d => (kv.1, scaleVar dt sd d)
      | none => kv
    else kv

/-- Shaping.new_trial without the terminal delegation to the wrapped
environment: advance the phase bookkeeping, reset the per-trial state,
reset the environment counters, and install the phase specific timing
and jitter into the wrapped environment.  The call to
self.build_timing_fns(**timing) is modelled as installing the computed
timing dict as the environment timing. -/
def new_trialAux (s0 : ShapingState) : ShapingState :=
  let s := Shaping.set_phase s0
  let s1 : ShapingState :=
    { s with first_choice := true, performance := 0, env := trialEnvReset s.env }
  if s1.curr_ph < 2 then
    if s1.short = false then
      { s1 with
          short := true
          varEnabled := false
          env := { s1.env with
                     sigma_dt := 0
                     timing := installShort s1.env.timing (changeKeys s1) s1.short_dur } }
    else
      { s1 with env := { s1.env with sigma_dt := 0 } }
  else if s1.curr_ph < 4 then
    let s2 : ShapingState :=
      if s1.short = false ∨ s1.varEnabled = false then
        { s1 with
            short := true
            varEnabled := true
            env := { s1.env with
                       timing := installVar s1.env.timing s1.ori_periods
                         (changeKeys s1) s1.env.dt s1.short_dur } }
      else s1
    if s2.curr_ph = 2 then { s2 with env := { s2.env with sigma_dt := 0 } }
    else { s2 with env := { s2.env with sigma_dt := s2.sigma_dt_ori } }
  else
    { s1 with
        env := { s1.env with
                   sigma_dt := s1.sigma_dt_ori
                   timing := s1.ori_periods } }

/-- Shaping.new_trial: the wrapper mutations of new_trialAux followed by
the delegation self.env.new_trial(), modelled as an arbitrary effect f
on the wrapped environment applied after the wrapper mutations. -/
def new_trial (f : EnvState → EnvState) (s : ShapingState) : ShapingState :=
  let s1 := new_trialAux s
  { s1 with env := f s1.env }

end Shaping

/-- One response of the wrapped environment to a step call: the values
returned by env._step / env.step, the new_trial flag and the optional
performance entry of the returned info dict, the value the call leaves
in env.performance, and (only meaningful for the delegated env.step of
phases 2 and up, which does its own time bookkeeping) the values it
leaves in env.t and env.t_ind. -/
structure EnvResp where
  reward : ℚ
  done : Bool
  new_trial : Bool
  info_perf : Option ℚ
  env_perf : ℚ
  t_after : ℚ
  t_ind_after : ℕ
deriving DecidableEq

/-- The observable output of one Shaping.step call: the returned reward,
the done flag, and the new_trial flag and performance entry of the
returned info dict. -/
structure StepOut where
  reward : ℚ
  done : Bool
  new_trial : Bool
  info_perf : Option ℚ
deriving DecidableEq

namespace Shaping

/-- The trial boundary handling of Shaping.step in phases 0 and 1,
returning the updated state, the reward and the possibly overridden
new_trial flag.  Phase 0: update the streak counter and grant the
correct reward unless the counter exceeds max_num_reps, ignoring the
factual outcome.  Phase 1: a falsy env.performance zeroes the reward
and suppresses the boundary; the first choice of the trial is recorded
as the trial performance. -/
def lowBoundary (s : ShapingState) (action : ℕ) (reward : ℚ) :
    ShapingState × ℚ × Bool :=
  if s.curr_ph = 0 then
    let s1 := Shaping.count s action
    if s1.max_num_reps < s1.counter then
      ({ s1 with performance := 0 }, 0, true)
    else
      ({ s1 with performance := 1 }, s1.env.rewards_correct, true)
  else
    let r : ℚ := if s.env.performance = 0 then 0 else reward
    let nt : Bool := if s.env.performance = 0 then false else true
    let s1 : ShapingState :=
      if s.first_choice = true then
        { s with performance := s.env.performance, first_choice := false }
      else s
    (s1, r, nt)

/-- Shaping.step.  In phases 0 and 1 the wrapper drives the low level
env._step itself: it floors the raw reward at 0, advances the trial
clock, applies the boundary shaping of lowBoundary, forces a boundary
with the r_tmax term once the clock exceeds tmax - dt, and on a final
boundary reports the tracked performance and runs new_trial.  In phases
2 and up stepping is delegated to env.step; the reward is floored at 0
while curr_ph < 5, and a reported boundary stores the reported
performance and runs new_trial.  The delegated env.new_trial call at
the end of new_trial is modelled as leaving the tracked environment
fields unchanged. -/
def step (s : ShapingState) (action : ℕ) (resp : EnvResp) :
    ShapingState × StepOut :=
  if s.curr_ph < 2 then
    let s2 : ShapingState :=
      { s with
          env := { s.env with
                     performance := resp.env_perf
                     t := s.env.t + s.env.dt
                     t_ind := s.env.t_ind + 1 } }
    let r1 : ℚ := max resp.reward 0
    let b := if resp.new_trial = true then lowBoundary s2 action r1
             else (s2, r1, false)
    let s3 := b.1
    let r2 := b.2.1
    let nt2 := b.2.2
    let r3 : ℚ := if s3.env.tmax - s3.env.dt < s3.env.t ∧ nt2 = false then
                    r2 + s3.r_tmax
                  else r2
    let nt3 : Bool := if s3.env.tmax - s3.env.dt < s3.env.t ∧ nt2 = false then
                        true
                      else nt2
    if nt3 = true then
      (new_trialAux s3, ⟨r3, resp.done, true, some s3.performance⟩)
    else
      (s3, ⟨r3, resp.done, false, resp.info_perf⟩)
  else
    let s2 : ShapingState :=
      { s with
          env := { s.env with
                     performance := resp.env_perf
                     t := resp.t_after
                     t_ind := resp.t_ind_after } }
    let r : ℚ := if s.curr_ph < 5 then max resp.reward 0 else resp.reward
    if resp.new_trial = true then
      (new_trialAux { s2 with performance := resp.info_perf.getD 0 },
       ⟨r, resp.done, true, resp.info_perf⟩)
    else
      (s2, ⟨r, resp.done, false, resp.info_perf⟩)

end Shaping

/-- One external interaction with the wrapper: either a step call with
the response of the wrapped environment, or a direct new_trial call. -/
inductive Op where
  | act (action : ℕ) (resp : EnvResp)
  | trial
deriving DecidableEq

/-- Run one interaction. -/
def runOp (s : ShapingState) : Op → ShapingState
  | .act a r => (Shaping.step s a r).1
  | .trial => Shaping.new_trialAux s

/-- Run a sequence of interactions. -/
def run (s : ShapingState) (ops : List Op) : ShapingState := ops.foldl runOp s

/-- A wrapped environment as seen by the constructor: every member of
the consumed contract may be present or missing.  Methods are recorded
by presence flags, data fields by optional values. -/
structure PartialEnv where
  has_reset : Bool
  has_step : Bool
  has_new_trial : Bool
  dt : Option ℚ
  tmax : Option ℚ
  t : Option ℚ
  t_ind : Option ℕ
  num_tr : Option ℕ
  timing : Option (List (String × DistDesc))
  sigma_dt : Option ℚ
  rewards_correct : Option ℚ
  performance : Option ℚ
deriving DecidableEq

namespace Shaping

/-- The attribute accesses Shaping.__init__ performs on the wrapped
environment, in source order: env.dt (for the short_dur conversion),
env.timing (for the original snapshot) and env.sigma_dt (for the
original jitter): the construction fails exactly when one of these is
missing, and returns the captured configuration otherwise.

Modelled from the spec: the base class constructor called by
super().__init__(env) is not part of the shown source; per the consumed
contract of the spec it only stores the environment and reads none of
the contract members, so it contributes no accesses here. -/
def initAccess (env : PartialEnv) (short_dur : ℚ) :
    Option (ℚ × List (String × DistDesc) × ℚ) := do
  let dt ← env.dt
  let timing ← env.timing
  let sigma ← env.sigma_dt
  pure (((pyInt (short_dur * dt) : ℤ) : ℚ), timing, sigma)

end Shaping

/-- A small concrete wrapped environment used by witnesses: three
periods, the last one excluded from the transformations. -/
def envA : EnvState :=
  { dt := 10
    tmax := 100
    t := 0
    t_ind := 0
    num_tr := 0
    timing := [("fixation", ("constant", [3])),
               ("stimulus", ("uniform", [3, 5])),
               ("decision", ("constant", [4]))]
    sigma_dt := 7
    rewards_correct := 1
    performance := 0 }

/-- A wrapped environment response reporting a trial boundary with a
positive reward and a correct outcome. -/
def respB : EnvResp :=
  { reward := 1
    done := false
    new_trial := true
    info_perf := some 1
    env_perf := 1
    t_after := 0
    t_ind_after := 0 }

/-- A wrapped environment response with a negative reward and no trial
boundary. -/
def respNeg : EnvResp :=
  { reward := -1
    done := false
    new_trial := false
    info_perf := none
    env_perf := 0
    t_after := 0
    t_ind_after := 0 }

/-- The fields of the wrapper state that a Shaping.step call leaves
untouched on the state it hands to new_trialAux (or returns directly):
everything except the per-trial bookkeeping of the environment and the
tracked trial performance. -/
def EqCore (s x : ShapingState) : Prop :=
  x.curr_ph = s.curr_ph ∧ x.short = s.short ∧ x.varEnabled = s.varEnabled ∧
  x.env.timing = s.env.timing ∧ x.ori_periods = s.ori_periods ∧
  x.short_dur = s.short_dur ∧ x.env.dt = s.env.dt ∧
  x.mov_window = s.mov_window ∧ x.perf_window = s.perf_window ∧
  x.goal_perf = s.goal_perf ∧ x.r_tmax = s.r_tmax ∧
  x.env.rewards_correct = s.env.rewards_correct ∧ x.sigma_dt_ori = s.sigma_dt_ori
/-- Rewriting every change period of an ordered mapping with f, leaving
the other periods alone.  Both timing rewrites of Shaping.new_trial
produce mappings of this shape when they start from the original
snapshot. -/
def applyChange (ori : List (String × DistDesc)) (f : DistDesc → DistDesc) :
    List (String × DistDesc) :=
  ori.map fun kv =>
    if kv.1 ∈ (ori.map Prod.fst).dropLast then (kv.1, f kv.2) else kv
/-- The timing regime invariant: the active timing dict of the wrapped
environment is determined by the regime flags and the phase.  Before any
rewrite the active timing is the original snapshot; under the
forced-short regime of phases 0 and 1 it is the constant rewrite of the
snapshot; under the short variable regime of phases 2 and 3 it is the
scaled rewrite of the snapshot.  The last two clauses tie the regime
flags to the phase ranges in which they can occur. -/
def Winv (s : ShapingState) : Prop :=
  ((s.curr_ph < 2 ∧ s.short = true) →
      s.env.timing =
        applyChange s.ori_periods (fun _ => ("constant", [s.short_dur]))) ∧
  ((2 ≤ s.curr_ph ∧ s.curr_ph < 4 ∧ s.short = true ∧ s.varEnabled = true) →
      s.env.timing = applyChange s.ori_periods (Shaping.scaleVar s.env.dt s.short_dur)) ∧
  (s.short = false → s.env.timing = s.ori_periods) ∧
  ((s.short = true ∧ s.varEnabled = false) → s.curr_ph < 2) ∧
  ((s.short = true ∧ s.varEnabled = true) → 2 ≤ s.curr_ph)
/-- A wrapped environment response reporting a boundary with a negative
trial performance. -/
def respC5 : EnvResp :=
  { reward := 5
    done := false
    new_trial := true
    info_perf := none
    env_perf := -1
    t_after := 0
    t_ind_after := 0 }
/-- The same response with trial performance exactly 0. -/
def respC5z : EnvResp := { respC5 with env_perf := 0 }
/-- A wrapped environment offering every contract member except tmax. -/
def partialEnvNoTmax : PartialEnv :=
  { has_reset := true
    has_step := true
    has_new_trial := true
    dt := some 10
    tmax := none
    t := some 0
    t_ind := some 0
    num_tr := some 0
    timing := some envA.timing
    sigma_dt := some 7
    rewards_correct := some 1
    performance := some 0 }

namespace Shaping

section FrameLemmas

variable (s : ShapingState) (a : ℕ) (r : ℚ)

/-- Shaping.count only touches the streak counter and the remembered
previous action. -/
theorem count_eq : Shaping.count s a =
    { s with
        counter := if a ≠ 0 then (if a = s.prev_act then s.counter + 1 else 1)
                   else s.counter
        prev_act := if a ≠ 0 then (if a = s.prev_act then s.prev_act else a)
                    else s.prev_act } := by
  unfold Shaping.count; (repeat' split) <;> rfl

@[simp] theorem set_phase_env : (set_phase s).env = s.env := by
  unfold set_phase; (repeat' split) <;> rfl

@[simp] theorem set_phase_perf_window : (set_phase s).perf_window = s.perf_window := by
  unfold set_phase; (repeat' split) <;> rfl

@[simp] theorem set_phase_goal_perf : (set_phase s).goal_perf = s.goal_perf := by
  unfold set_phase; (repeat' split) <;> rfl

@[simp] theorem set_phase_counter : (set_phase s).counter = s.counter := by
  unfold set_phase; (repeat' split) <;> rfl

@[simp] theorem set_phase_action : (set_phase s).action = s.action := by
  unfold set_phase; (repeat' split) <;> rfl

@[simp] theorem set_phase_prev_act : (set_phase s).prev_act = s.prev_act := by
  unfold set_phase; (repeat' split) <;> rfl

@[simp] theorem set_phase_max_num_reps : (set_phase s).max_num_reps = s.max_num_reps := by
  unfold set_phase; (repeat' split) <;> rfl

@[simp] theorem set_phase_first_choice : (set_phase s).first_choice = s.first_choice := by
  unfold set_phase; (repeat' split) <;> rfl

@[simp] theorem set_phase_performance : (set_phase s).performance = s.performance := by
  unfold set_phase; (repeat' split) <;> rfl

@[simp] theorem set_phase_short : (set_phase s).short = s.short := by
  unfold set_phase; (repeat' split) <;> rfl

@[simp] theorem set_phase_varEnabled : (set_phase s).varEnabled = s.varEnabled := by
  unfold set_phase; (repeat' split) <;> rfl

@[simp] theorem set_phase_short_dur : (set_phase s).short_dur = s.short_dur := by
  unfold set_phase; (repeat' split) <;> rfl

@[simp] theorem set_phase_ori_periods : (set_phase s).ori_periods = s.ori_periods := by
  unfold set_phase; (repeat' split) <;> rfl

@[simp] theorem set_phase_sigma_dt_ori : (set_phase s).sigma_dt_ori = s.sigma_dt_ori := by
  unfold set_phase; (repeat' split) <;> rfl

@[simp] theorem set_phase_r_tmax : (set_phase s).r_tmax = s.r_tmax := by
  unfold set_phase; (repeat' split) <;> rfl

/-- The phase after set_phase: unchanged, or incremented while below 5. -/
theorem set_phase_ph_cases :
    (set_phase s).curr_ph = s.curr_ph ∨
    ((set_phase s).curr_ph = s.curr_ph + 1 ∧ s.curr_ph < 5) := by
  unfold set_phase; (repeat' split) <;> simp_all

theorem set_phase_mono : s.curr_ph ≤ (set_phase s).curr_ph := by
  rcases set_phase_ph_cases s with h | h <;> omega

theorem set_phase_le_succ : (set_phase s).curr_ph ≤ s.curr_ph + 1 := by
  rcases set_phase_ph_cases s with h | h <;> omega

theorem set_phase_le5 (h : s.curr_ph ≤ 5) : (set_phase s).curr_ph ≤ 5 := by
  rcases set_phase_ph_cases s with h1 | h1 <;> omega

/-- At phase 5 and beyond set_phase is the identity. -/
theorem set_phase_fix (h : 5 ≤ s.curr_ph) : set_phase s = s := by
  unfold set_phase
  rw [if_neg (by omega)]

/-- set_phase keeps the rolling window within its capacity. -/
theorem set_phase_wlen (h : s.mov_window.length ≤ s.perf_window) :
    (set_phase s).mov_window.length ≤ s.perf_window := by
  unfold set_phase
  (repeat' split) <;> simp_all <;> omega

end FrameLemmas

section LowBoundaryLemmas

variable (s : ShapingState) (a : ℕ) (r : ℚ)

@[simp] theorem lowBoundary_env : ((lowBoundary s a r).1).env = s.env := by
  unfold lowBoundary Shaping.count; dsimp only; split_ifs <;> rfl

@[simp] theorem lowBoundary_curr_ph : ((lowBoundary s a r).1).curr_ph = s.curr_ph := by
  unfold lowBoundary Shaping.count; dsimp only; split_ifs <;> rfl

@[simp] theorem lowBoundary_mov_window : ((lowBoundary s a r).1).mov_window = s.mov_window := by
  unfold lowBoundary Shaping.count; dsimp only; split_ifs <;> rfl

@[simp] theorem lowBoundary_perf_window : ((lowBoundary s a r).1).perf_window = s.perf_window := by
  unfold lowBoundary Shaping.count; dsimp only; split_ifs <;> rfl

@[simp] theorem lowBoundary_goal_perf : ((lowBoundary s a r).1).goal_perf = s.goal_perf := by
  unfold lowBoundary Shaping.count; dsimp only; split_ifs <;> rfl

@[simp] theorem lowBoundary_short : ((lowBoundary s a r).1).short = s.short := by
  unfold lowBoundary Shaping.count; dsimp only; split_ifs <;> rfl

@[simp] theorem lowBoundary_varEnabled : ((lowBoundary s a r).1).varEnabled = s.varEnabled := by
  unfold lowBoundary Shaping.count; dsimp only; split_ifs <;> rfl

@[simp] theorem lowBoundary_short_dur : ((lowBoundary s a r).1).short_dur = s.short_dur := by
  unfold lowBoundary Shaping.count; dsimp only; split_ifs <;> rfl

@[simp] theorem lowBoundary_ori_periods : ((lowBoundary s a r).1).ori_periods = s.ori_periods := by
  unfold lowBoundary Shaping.count; dsimp only; split_ifs <;> rfl

@[simp] theorem lowBoundary_sigma_dt_ori : ((lowBoundary s a r).1).sigma_dt_ori = s.sigma_dt_ori := by
  unfold lowBoundary Shaping.count; dsimp only; split_ifs <;> rfl

@[simp] theorem lowBoundary_r_tmax : ((lowBoundary s a r).1).r_tmax = s.r_tmax := by
  unfold lowBoundary Shaping.count; dsimp only; split_ifs <;> rfl

@[simp] theorem lowBoundary_max_num_reps : ((lowBoundary s a r).1).max_num_reps = s.max_num_reps := by
  unfold lowBoundary Shaping.count; dsimp only; split_ifs <;> rfl

/-- The reward produced at a low phase boundary is the zero reward, the
configured correct reward, or the incoming reward. -/
theorem lowBoundary_reward_cases :
    (lowBoundary s a r).2.1 = 0 ∨ (lowBoundary s a r).2.1 = s.env.rewards_correct ∨
    (lowBoundary s a r).2.1 = r := by
  unfold lowBoundary Shaping.count; dsimp only; split_ifs <;> simp

end LowBoundaryLemmas

section NtaLemmas

variable (s : ShapingState)

@[simp] theorem nta_curr_ph : (new_trialAux s).curr_ph = (set_phase s).curr_ph := by
  simp only [new_trialAux]; split_ifs <;> rfl

@[simp] theorem nta_mov_window : (new_trialAux s).mov_window = (set_phase s).mov_window := by
  simp only [new_trialAux]; split_ifs <;> rfl

@[simp] theorem nta_curr_perf : (new_trialAux s).curr_perf = (set_phase s).curr_perf := by
  simp only [new_trialAux]; split_ifs <;> rfl

@[simp] theorem nta_ori_periods : (new_trialAux s).ori_periods = s.ori_periods := by
  simp only [new_trialAux]; split_ifs <;> simp

@[simp] theorem nta_short_dur : (new_trialAux s).short_dur = s.short_dur := by
  simp only [new_trialAux]; split_ifs <;> simp

@[simp] theorem nta_perf_window : (new_trialAux s).perf_window = s.perf_window := by
  simp only [new_trialAux]; split_ifs <;> simp

@[simp] theorem nta_goal_perf : (new_trialAux s).goal_perf = s.goal_perf := by
  simp only [new_trialAux]; split_ifs <;> simp

@[simp] theorem nta_max_num_reps : (new_trialAux s).max_num_reps = s.max_num_reps := by
  simp only [new_trialAux]; split_ifs <;> simp

@[simp] theorem nta_sigma_dt_ori : (new_trialAux s).sigma_dt_ori = s.sigma_dt_ori := by
  simp only [new_trialAux]; split_ifs <;> simp

@[simp] theorem nta_r_tmax : (new_trialAux s).r_tmax = s.r_tmax := by
  simp only [new_trialAux]; split_ifs <;> simp

@[simp] theorem nta_counter : (new_trialAux s).counter = s.counter := by
  simp only [new_trialAux]; split_ifs <;> simp

@[simp] theorem nta_prev_act : (new_trialAux s).prev_act = s.prev_act := by
  simp only [new_trialAux]; split_ifs <;> simp

@[simp] theorem nta_first_choice : (new_trialAux s).first_choice = true := by
  simp only [new_trialAux]; split_ifs <;> rfl

@[simp] theorem nta_performance : (new_trialAux s).performance = 0 := by
  simp only [new_trialAux]; split_ifs <;> rfl

@[simp] theorem nta_env_dt : (new_trialAux s).env.dt = s.env.dt := by
  simp only [new_trialAux]; split_ifs <;> simp [trialEnvReset]

@[simp] theorem nta_env_tmax : (new_trialAux s).env.tmax = s.env.tmax := by
  simp only [new_trialAux]; split_ifs <;> simp [trialEnvReset]

@[simp] theorem nta_env_rewards_correct :
    (new_trialAux s).env.rewards_correct = s.env.rewards_correct := by
  simp only [new_trialAux]; split_ifs <;> simp [trialEnvReset]

@[simp] theorem nta_env_performance : (new_trialAux s).env.performance = 0 := by
  simp only [new_trialAux]; split_ifs <;> simp [trialEnvReset]

@[simp] theorem nta_env_t : (new_trialAux s).env.t = 0 := by
  simp only [new_trialAux]; split_ifs <;> simp [trialEnvReset]

@[simp] theorem nta_env_t_ind : (new_trialAux s).env.t_ind = 0 := by
  simp only [new_trialAux]; split_ifs <;> simp [trialEnvReset]

@[simp] theorem nta_env_num_tr : (new_trialAux s).env.num_tr = s.env.num_tr + 1 := by
  simp only [new_trialAux]; split_ifs <;> simp [trialEnvReset]

end NtaLemmas

end Shaping



/-- Every Shaping.step call either returns a state that agrees with the
input on the core fields, or finishes with new_trialAux applied to such
a state. -/
theorem step_cases (s : ShapingState) (a : ℕ) (resp : EnvResp) :
    EqCore s ((Shaping.step s a resp).1) ∨
    ∃ x, EqCore s x ∧ (Shaping.step s a resp).1 = Shaping.new_trialAux x := by
  unfold Shaping.step
  dsimp only
  split_ifs <;>
    first
      | (left; simp [EqCore]; done)
      | (right; exact ⟨_, by simp [EqCore], rfl⟩)
      | simp_all



theorem applyChange_id (ori : List (String × DistDesc)) :
    applyChange ori (fun d => d) = ori := by
  unfold applyChange
  conv_rhs => rw [← List.map_id ori]
  apply List.map_congr_left
  intro kv _
  split <;> simp

/-- In a mapping with distinct keys, lookup of the key of a member
returns the value of that member. -/
theorem lookup_self (l : List (String × DistDesc))
    (hnd : (l.map Prod.fst).Nodup) :
    ∀ kv ∈ l, l.lookup kv.1 = some kv.2 := by
  induction l with
  | nil => simp
  | cons hd t ih =>
    obtain ⟨a, b⟩ := hd
    simp only [List.map_cons, List.nodup_cons] at hnd
    obtain ⟨hhd, htl⟩ := hnd
    intro kv hkv
    rcases List.mem_cons.1 hkv with h | h
    · subst h; simp [List.lookup]
    · have hne : (kv.1 == a) = false := by
        refine beq_eq_false_iff_ne.2 ?_
        intro he
        exact hhd (he ▸ List.mem_map_of_mem Prod.fst h)
      simp only [List.lookup, hne]
      exact ih htl kv h

/-- Lookup on a cons cell of a string keyed mapping. -/
theorem lookup_cons (k a : String) (b : DistDesc) (t : List (String × DistDesc)) :
    List.lookup k ((a, b) :: t) = if k = a then some b else List.lookup k t := by
  by_cases h : k = a
  · subst h; simp [List.lookup]
  · simp [List.lookup, beq_eq_false_iff_ne.2 h, h]

/-- Lookup through a keywise map that rewrites the values of the keys in
a designated set. -/
theorem lookup_map_if (l : List (String × DistDesc)) (ck : List String)
    (f : DistDesc → DistDesc) (k : String) :
    (l.map fun kv => if kv.1 ∈ ck then (kv.1, f kv.2) else kv).lookup k =
      (l.lookup k).map (fun d => if k ∈ ck then f d else d) := by
  induction l with
  | nil => simp
  | cons hd t ih =>
    obtain ⟨a, b⟩ := hd
    by_cases hm : a ∈ ck <;> by_cases hk : k = a <;>
      simp [hm, hk, lookup_cons, ih]

/-- Lookup of a change key through applyChange. -/
theorem lookup_applyChange (ori : List (String × DistDesc))
    (f : DistDesc → DistDesc) (k : String)
    (hk : k ∈ (ori.map Prod.fst).dropLast) (d : DistDesc)
    (hd : ori.lookup k = some d) :
    (applyChange ori f).lookup k = some (f d) := by
  unfold applyChange
  rw [lookup_map_if, hd]
  simp [hk]

/-- Applying the variable rewrite of phases 2 and 3 to a timing dict of
applyChange shape yields the scaled version of the original snapshot:
the stale values of the change periods are discarded in favour of the
freshly scaled original descriptors, and the excluded period was never
rewritten. -/
theorem installVar_applyChange (ori : List (String × DistDesc))
    (g : DistDesc → DistDesc) (dt sd : ℚ)
    (hnd : (ori.map Prod.fst).Nodup) :
    Shaping.installVar (applyChange ori g) ori ((ori.map Prod.fst).dropLast) dt sd =
      applyChange ori (Shaping.scaleVar dt sd) := by
  unfold Shaping.installVar applyChange
  rw [List.map_map]
  apply List.map_congr_left
  intro kv hkv
  by_cases hc : kv.1 ∈ (ori.map Prod.fst).dropLast
  · simp [Function.comp, hc, lookup_self ori hnd kv hkv]
  · simp [Function.comp, hc]

/-- The constant rewrite of phases 0 and 1, applied to the original
snapshot, is an applyChange rewrite. -/
theorem installShort_applyChange (ori : List (String × DistDesc)) (sd : ℚ) :
    Shaping.installShort ori ((ori.map Prod.fst).dropLast) sd =
      applyChange ori (fun _ => ("constant", [sd])) := rfl

namespace Shaping

section BranchLemmas

variable (s : ShapingState)

/-- Phase below 2 with the short regime not yet installed: new_trialAux
rewrites every change period to the constant short duration, zeroes the
jitter, and records the forced-short regime. -/
theorem nta_branch_lt2_rebuild (h : (set_phase s).curr_ph < 2)
    (hsh : s.short = false) :
    (new_trialAux s).env.timing =
        installShort s.env.timing (changeKeys s) s.short_dur ∧
    (new_trialAux s).short = true ∧ (new_trialAux s).varEnabled = false ∧
    (new_trialAux s).env.sigma_dt = 0 := by
  simp only [new_trialAux]
  split_ifs with h1 h2 <;>
    simp_all [trialEnvReset, changeKeys]

/-- Phase below 2 with the short regime already installed: new_trialAux
keeps the timing dict and only zeroes the jitter. -/
theorem nta_branch_lt2_keep (h : (set_phase s).curr_ph < 2)
    (hsh : s.short = true) :
    (new_trialAux s).env.timing = s.env.timing ∧
    (new_trialAux s).short = s.short ∧
    (new_trialAux s).varEnabled = s.varEnabled ∧
    (new_trialAux s).env.sigma_dt = 0 := by
  simp only [new_trialAux]
  split_ifs with h1 h2 <;>
    simp_all [trialEnvReset, changeKeys]

/-- Phase 2 or 3 with the short variable regime not yet installed:
new_trialAux rewrites the change periods with the scaled original
descriptors and records the short variable regime. -/
theorem nta_branch_mid_rebuild (h2 : 2 ≤ (set_phase s).curr_ph)
    (h4 : (set_phase s).curr_ph < 4)
    (hreb : s.short = false ∨ s.varEnabled = false) :
    (new_trialAux s).env.timing =
        installVar s.env.timing s.ori_periods (changeKeys s) s.env.dt s.short_dur ∧
    (new_trialAux s).short = true ∧ (new_trialAux s).varEnabled = true := by
  have hn2 : ¬ (set_phase s).curr_ph < 2 := by omega
  simp only [new_trialAux]
  split_ifs with ha hb hc hd <;>
    simp_all [trialEnvReset, changeKeys]

/-- Phase 2 or 3 with the short variable regime already installed:
new_trialAux keeps the timing dict and the regime flags. -/
theorem nta_branch_mid_keep (h2 : 2 ≤ (set_phase s).curr_ph)
    (h4 : (set_phase s).curr_ph < 4)
    (hsh : s.short = true) (hv : s.varEnabled = true) :
    (new_trialAux s).env.timing = s.env.timing ∧
    (new_trialAux s).short = true ∧ (new_trialAux s).varEnabled = true := by
  have hn2 : ¬ (set_phase s).curr_ph < 2 := by omega
  simp only [new_trialAux]
  split_ifs with ha hb hc hd <;>
    simp_all [trialEnvReset, changeKeys]

/-- Phase 2 or 3: the jitter is zeroed at phase 2 and restored to the
original value at phase 3. -/
theorem nta_branch_mid_sigma (h2 : 2 ≤ (set_phase s).curr_ph)
    (h4 : (set_phase s).curr_ph < 4) :
    ((set_phase s).curr_ph = 2 → (new_trialAux s).env.sigma_dt = 0) ∧
    ((set_phase s).curr_ph = 3 → (new_trialAux s).env.sigma_dt = s.sigma_dt_ori) := by
  have hn2 : ¬ (set_phase s).curr_ph < 2 := by omega
  simp only [new_trialAux]
  split_ifs with ha hb hc hd <;>
    constructor <;> intro hph <;> simp_all [trialEnvReset, changeKeys]

/-- Phase 4 and beyond: new_trialAux restores the original snapshot and
jitter and leaves the regime flags alone. -/
theorem nta_branch_ge4 (h : 4 ≤ (set_phase s).curr_ph) :
    (new_trialAux s).env.timing = s.ori_periods ∧
    (new_trialAux s).short = s.short ∧
    (new_trialAux s).varEnabled = s.varEnabled ∧
    (new_trialAux s).env.sigma_dt = s.sigma_dt_ori := by
  have hn2 : ¬ (set_phase s).curr_ph < 2 := by omega
  have hn4 : ¬ (set_phase s).curr_ph < 4 := by omega
  simp only [new_trialAux]
  split_ifs with ha hb <;>
    simp_all [trialEnvReset, changeKeys]

end BranchLemmas

end Shaping



/-- The timing regime invariant is preserved by new_trialAux. -/
theorem Winv_nta (s : ShapingState)
    (hnd : (s.ori_periods.map Prod.fst).Nodup) (hW : Winv s) :
    Winv (Shaping.new_trialAux s) := by
  obtain ⟨h1, h2, h3, h4, h5⟩ := hW
  have hmono := Shaping.set_phase_mono s
  have hsucc := Shaping.set_phase_le_succ s
  have hck : Shaping.changeKeys s = (s.ori_periods.map Prod.fst).dropLast := rfl
  have hph := Shaping.nta_curr_ph s
  have hori := Shaping.nta_ori_periods s
  have hsd := Shaping.nta_short_dur s
  have hdt := Shaping.nta_env_dt s
  rcases Nat.lt_or_ge (Shaping.set_phase s).curr_ph 2 with hlt | hge2
  · -- phase 0 or 1 branch
    have hconst : (Shaping.new_trialAux s).env.timing =
        applyChange s.ori_periods (fun _ => ("constant", [s.short_dur])) ∧
        (Shaping.new_trialAux s).short = true := by
      cases hsh : s.short with
      | false =>
        obtain ⟨ht, hs, _, _⟩ := Shaping.nta_branch_lt2_rebuild s hlt hsh
        exact ⟨by rw [ht, h3 hsh, hck, installShort_applyChange], hs⟩
      | true =>
        obtain ⟨ht, hs, _, _⟩ := Shaping.nta_branch_lt2_keep s hlt hsh
        exact ⟨by rw [ht]; exact h1 ⟨by omega, hsh⟩, by rw [hs, hsh]⟩
    obtain ⟨htim, hstrue⟩ := hconst
    refine ⟨?_, ?_, ?_, ?_, ?_⟩
    · intro _; rw [htim, hori, hsd]
    · intro hcon; exfalso; have := hcon.1; omega
    · intro hcon; rw [hstrue] at hcon; cases hcon
    · intro _; omega
    · intro hcon; exfalso
      -- the short variable regime cannot coexist with a phase below 2
      cases hsh : s.short with
      | false =>
        obtain ⟨_, _, hv, _⟩ := Shaping.nta_branch_lt2_rebuild s hlt hsh
        rw [hv] at hcon; cases hcon.2
      | true =>
        obtain ⟨_, _, hv, _⟩ := Shaping.nta_branch_lt2_keep s hlt hsh
        rw [hv] at hcon
        have := h5 ⟨hsh, hcon.2⟩
        omega
  · rcases Nat.lt_or_ge (Shaping.set_phase s).curr_ph 4 with hlt4 | hge4
    · -- phase 2 or 3 branch
      have hscale : (Shaping.new_trialAux s).env.timing =
          applyChange s.ori_periods (Shaping.scaleVar s.env.dt s.short_dur) ∧
          (Shaping.new_trialAux s).short = true ∧
          (Shaping.new_trialAux s).varEnabled = true := by
        by_cases hreb : s.short = false ∨ s.varEnabled = false
        · obtain ⟨ht, hs, hv⟩ := Shaping.nta_branch_mid_rebuild s hge2 hlt4 hreb
          refine ⟨?_, hs, hv⟩
          cases hsh : s.short with
          | false =>
            rw [ht, h3 hsh, hck]
            have h := installVar_applyChange s.ori_periods (fun d => d)
              s.env.dt s.short_dur hnd
            rw [applyChange_id] at h
            exact h
          | true =>
            have hvf : s.varEnabled = false := by
              rcases hreb with h | h
              · rw [hsh] at h; cases h
              · exact h
            rw [ht, h1 ⟨h4 ⟨hsh, hvf⟩, hsh⟩, hck]
            exact installVar_applyChange s.ori_periods
              (fun _ => ("constant", [s.short_dur])) s.env.dt s.short_dur hnd
        · push_neg at hreb
          obtain ⟨hsh, hv0⟩ := hreb
          have hsh : s.short = true := by revert hsh; cases s.short <;> simp
          have hv0 : s.varEnabled = true := by revert hv0; cases s.varEnabled <;> simp
          obtain ⟨ht, hs, hv⟩ := Shaping.nta_branch_mid_keep s hge2 hlt4 hsh hv0
          have hge2s : 2 ≤ s.curr_ph := h5 ⟨hsh, hv0⟩
          refine ⟨?_, hs, hv⟩
          rw [ht]
          exact h2 ⟨hge2s, by omega, hsh, hv0⟩
      obtain ⟨htim, hstrue, hvtrue⟩ := hscale
      refine ⟨?_, ?_, ?_, ?_, ?_⟩
      · intro hcon; exfalso; have := hcon.1; omega
      · intro _; rw [htim, hori, hsd, hdt]
      · intro hcon; rw [hstrue] at hcon; cases hcon
      · intro hcon; rw [hvtrue] at hcon; cases hcon.2
      · intro _; omega
    · -- phase 4 and beyond branch
      obtain ⟨ht, hs, hv, _⟩ := Shaping.nta_branch_ge4 s hge4
      refine ⟨?_, ?_, ?_, ?_, ?_⟩
      · intro hcon; exfalso; have := hcon.1; omega
      · intro hcon; exfalso; have := hcon.2.1; omega
      · intro _; rw [ht, hori]
      · intro hcon; exfalso
        rw [hs, hv] at hcon
        have := h4 hcon
        omega
      · intro _; omega

/-- The timing regime invariant only mentions the core fields preserved
by the plain part of a step call. -/
theorem Winv_of_EqCore (s x : ShapingState) (h : EqCore s x) (hW : Winv s) :
    Winv x := by
  obtain ⟨hph, hsh, hv, htim, hori, hsd, hdt, _, _, _, _, _, _⟩ := h
  obtain ⟨h1, h2, h3, h4, h5⟩ := hW
  refine ⟨?_, ?_, ?_, ?_, ?_⟩ <;>
    simp only [hph, hsh, hv, htim, hori, hsd, hdt] <;>
    first
      | exact h1
      | exact h2
      | exact h3
      | exact h4
      | exact h5

/-- EqCore of a state with itself. -/
theorem EqCore_refl (s : ShapingState) : EqCore s s := by
  refine ⟨rfl, rfl, rfl, rfl, rfl, rfl, rfl, rfl, rfl, rfl, rfl, rfl, rfl⟩

/-- Every interaction either keeps the core fields or runs new_trialAux
on a state with the same core fields. -/
theorem runOp_cases (s : ShapingState) (o : Op) :
    EqCore s (runOp s o) ∨
    ∃ x, EqCore s x ∧ runOp s o = Shaping.new_trialAux x := by
  cases o with
  | act a resp => exact step_cases s a resp
  | trial => exact Or.inr ⟨s, EqCore_refl s, rfl⟩

/-- The keys of the original snapshot never change. -/
theorem runOp_ori (s : ShapingState) (o : Op) :
    (runOp s o).ori_periods = s.ori_periods := by
  rcases runOp_cases s o with h | ⟨x, hx, hr⟩
  · exact h.2.2.2.2.1
  · rw [hr, Shaping.nta_ori_periods, hx.2.2.2.2.1]

theorem runOp_short_dur (s : ShapingState) (o : Op) :
    (runOp s o).short_dur = s.short_dur := by
  rcases runOp_cases s o with h | ⟨x, hx, hr⟩
  · exact h.2.2.2.2.2.1
  · rw [hr, Shaping.nta_short_dur, hx.2.2.2.2.2.1]

theorem runOp_perf_window (s : ShapingState) (o : Op) :
    (runOp s o).perf_window = s.perf_window := by
  rcases runOp_cases s o with h | ⟨x, hx, hr⟩
  · exact h.2.2.2.2.2.2.2.2.1
  · rw [hr, Shaping.nta_perf_window, hx.2.2.2.2.2.2.2.2.1]

theorem runOp_env_dt (s : ShapingState) (o : Op) :
    (runOp s o).env.dt = s.env.dt := by
  rcases runOp_cases s o with h | ⟨x, hx, hr⟩
  · exact h.2.2.2.2.2.2.1
  · rw [hr, Shaping.nta_env_dt, hx.2.2.2.2.2.2.1]

/-- The phase never decreases over one interaction. -/
theorem runOp_mono (s : ShapingState) (o : Op) :
    s.curr_ph ≤ (runOp s o).curr_ph := by
  rcases runOp_cases s o with h | ⟨x, hx, hr⟩
  · rw [h.1]
  · rw [hr, Shaping.nta_curr_ph]
    have := Shaping.set_phase_mono x
    rw [hx.1] at this
    omega

/-- The phase never leaves the range up to 5 over one interaction. -/
theorem runOp_le5 (s : ShapingState) (o : Op) (h : s.curr_ph ≤ 5) :
    (runOp s o).curr_ph ≤ 5 := by
  rcases runOp_cases s o with hc | ⟨x, hx, hr⟩
  · rw [hc.1]; exact h
  · rw [hr, Shaping.nta_curr_ph]
    have h1 := Shaping.set_phase_le_succ x
    have h2 := Shaping.set_phase_ph_cases x
    rw [hx.1] at h1 h2
    rcases h2 with h2 | h2 <;> omega

/-- The rolling window stays within its capacity over one interaction. -/
theorem runOp_wlen (s : ShapingState) (o : Op)
    (h : s.mov_window.length ≤ s.perf_window) :
    (runOp s o).mov_window.length ≤ (runOp s o).perf_window := by
  rw [runOp_perf_window]
  rcases runOp_cases s o with hc | ⟨x, hx, hr⟩
  · rw [hc.2.2.2.2.2.2.2.1]; exact h
  · rw [hr, Shaping.nta_mov_window]
    have hx1 := hx.2.2.2.2.2.2.2.1
    have hx2 := hx.2.2.2.2.2.2.2.2.1
    have := Shaping.set_phase_wlen x (by rw [hx1, hx2]; exact h)
    rw [hx2] at this
    exact this

/-- The timing regime invariant is preserved by one interaction. -/
theorem runOp_Winv (s : ShapingState) (o : Op)
    (hnd : (s.ori_periods.map Prod.fst).Nodup) (hW : Winv s) :
    Winv (runOp s o) := by
  rcases runOp_cases s o with hc | ⟨x, hx, hr⟩
  · exact Winv_of_EqCore s _ hc hW
  · rw [hr]
    refine Winv_nta x ?_ (Winv_of_EqCore s x hx hW)
    rw [hx.2.2.2.2.1]
    exact hnd

theorem run_nil (s : ShapingState) : run s [] = s := rfl

theorem run_cons (s : ShapingState) (o : Op) (ops : List Op) :
    run s (o :: ops) = run (runOp s o) ops := rfl

theorem run_append (s : ShapingState) (l1 l2 : List Op) :
    run s (l1 ++ l2) = run (run s l1) l2 := List.foldl_append runOp s l1 l2

theorem run_ori (s : ShapingState) (ops : List Op) :
    (run s ops).ori_periods = s.ori_periods := by
  induction ops generalizing s with
  | nil => rfl
  | cons o t ih => rw [run_cons, ih, runOp_ori]

theorem run_short_dur (s : ShapingState) (ops : List Op) :
    (run s ops).short_dur = s.short_dur := by
  induction ops generalizing s with
  | nil => rfl
  | cons o t ih => rw [run_cons, ih, runOp_short_dur]

theorem run_perf_window (s : ShapingState) (ops : List Op) :
    (run s ops).perf_window = s.perf_window := by
  induction ops generalizing s with
  | nil => rfl
  | cons o t ih => rw [run_cons, ih, runOp_perf_window]

theorem run_env_dt (s : ShapingState) (ops : List Op) :
    (run s ops).env.dt = s.env.dt := by
  induction ops generalizing s with
  | nil => rfl
  | cons o t ih => rw [run_cons, ih, runOp_env_dt]

theorem run_mono (s : ShapingState) (ops : List Op) :
    s.curr_ph ≤ (run s ops).curr_ph := by
  induction ops generalizing s with
  | nil => exact le_refl _
  | cons o t ih =>
    rw [run_cons]
    exact le_trans (runOp_mono s o) (ih (runOp s o))

theorem run_le5 (s : ShapingState) (ops : List Op) (h : s.curr_ph ≤ 5) :
    (run s ops).curr_ph ≤ 5 := by
  induction ops generalizing s with
  | nil => exact h
  | cons o t ih =>
    rw [run_cons]
    exact ih (runOp s o) (runOp_le5 s o h)

theorem run_wlen (s : ShapingState) (ops : List Op)
    (h : s.mov_window.length ≤ s.perf_window) :
    (run s ops).mov_window.length ≤ (run s ops).perf_window := by
  induction ops generalizing s with
  | nil => exact h
  | cons o t ih =>
    rw [run_cons]
    exact ih (runOp s o) (runOp_wlen s o h)

theorem run_Winv (s : ShapingState) (ops : List Op)
    (hnd : (s.ori_periods.map Prod.fst).Nodup) (hW : Winv s) :
    Winv (run s ops) := by
  induction ops generalizing s with
  | nil => exact hW
  | cons o t ih =>
    rw [run_cons]
    refine ih (runOp s o) ?_ (runOp_Winv s o hnd hW)
    rw [runOp_ori]
    exact hnd

/-- A freshly constructed wrapper satisfies the timing regime invariant:
the active timing is the untouched snapshot and no regime is installed. -/
theorem Winv_init (env : EnvState) (ph mnr : ℕ) (sd th : ℚ) (pw : ℕ) (rt : ℚ) :
    Winv (Shaping.init env ph mnr sd th pw rt) := by
  refine ⟨?_, ?_, ?_, ?_, ?_⟩ <;> intro hcon <;> simp [Shaping.init] at hcon ⊢

/-- Claim C1, counterexample.  With init_ph = 4, threshold th = 0 and a
window of one trial, two new_trial calls drive the phase to 5: set_phase
invoked at phase 4 advances the phase once more, because the guard in
the source is curr_ph < 5 and goal_perf has an entry for phase 4. -/
theorem shaping_c1_counterexample :
    (run (Shaping.init envA 4 3 2 0 1 0) [Op.trial, Op.trial]).curr_ph = 5 ∧
    ¬ (run (Shaping.init envA 4 3 2 0 1 0) [Op.trial, Op.trial]).curr_ph < 5 := by
  have h : (run (Shaping.init envA 4 3 2 0 1 0) [Op.trial, Op.trial]).curr_ph = 5 := by
    norm_num [run, runOp, Shaping.new_trialAux, Shaping.set_phase, Shaping.init,
      envA, listMean, pyInt, Shaping.trialEnvReset, Shaping.changeKeys,
      Shaping.installShort, Shaping.installVar, Shaping.scaleVar, List.foldl]
  exact ⟨h, by omega⟩

/-- Claim C1, amended.  For every controller constructed with init_ph in
0..4 and every interaction sequence, the phase is monotonically
non-decreasing and stays in the range [0, 6): set_phase can advance
phase 4 to phase 5 when the rolling mean reaches the threshold, and a
controller at phase 5 is left unchanged by set_phase. -/
theorem shaping_c1 (env : EnvState) (ph mnr : ℕ) (sd th : ℚ) (pw : ℕ)
    (rt : ℚ) (ops extra : List Op) (hph : ph ≤ 4) :
    (run (Shaping.init env ph mnr sd th pw rt) ops).curr_ph ≤
      (run (Shaping.init env ph mnr sd th pw rt) (ops ++ extra)).curr_ph ∧
    (run (Shaping.init env ph mnr sd th pw rt) ops).curr_ph ≤ 5 ∧
    (5 ≤ (run (Shaping.init env ph mnr sd th pw rt) ops).curr_ph →
      Shaping.set_phase (run (Shaping.init env ph mnr sd th pw rt) ops) =
        run (Shaping.init env ph mnr sd th pw rt) ops) := by
  refine ⟨?_, ?_, ?_⟩
  · rw [run_append]
    exact run_mono _ extra
  · refine run_le5 _ ops ?_
    show ph ≤ 5
    omega
  · intro h5
    exact Shaping.set_phase_fix _ h5

/-- Witness for shaping_c1 at a concrete controller and trace. -/
theorem shaping_c1_witness :
    (run (Shaping.init envA 4 3 2 0 1 0) [Op.trial]).curr_ph ≤
      (run (Shaping.init envA 4 3 2 0 1 0) ([Op.trial] ++ [Op.trial])).curr_ph ∧
    (run (Shaping.init envA 4 3 2 0 1 0) [Op.trial]).curr_ph ≤ 5 ∧
    (5 ≤ (run (Shaping.init envA 4 3 2 0 1 0) [Op.trial]).curr_ph →
      Shaping.set_phase (run (Shaping.init envA 4 3 2 0 1 0) [Op.trial]) =
        run (Shaping.init envA 4 3 2 0 1 0) [Op.trial]) :=
  shaping_c1 envA 4 3 2 0 1 0 [Op.trial] [Op.trial] (by norm_num)

/-- Claim C6, counterexample.  A controller at phase 0 with perf_w = 1
and threshold 2 records two successful trials: on the second one the
mean is evaluated (curr_perf becomes 1) but the window is not cleared,
because the mean is below the threshold; the window keeps its entry. -/
theorem shaping_c6_counterexample :
    (run (Shaping.init envA 0 3 2 2 1 0) [Op.act 1 respB, Op.act 2 respB]).curr_perf = 1 ∧
    (run (Shaping.init envA 0 3 2 2 1 0) [Op.act 1 respB, Op.act 2 respB]).mov_window = [1] := by
  constructor <;>
    norm_num [run, runOp, Shaping.step, Shaping.lowBoundary, Shaping.count,
      Shaping.new_trialAux, Shaping.set_phase, Shaping.init, envA, respB,
      listMean, pyInt, Shaping.trialEnvReset, Shaping.changeKeys,
      Shaping.installShort, Shaping.installVar, Shaping.scaleVar, List.foldl]

/-- Claim C6, amended.  Along every interaction sequence the rolling
window never holds more than perf_w entries; while the window is below
capacity (and the phase is still tracked, curr_ph < 5) a recorded
outcome merely accumulates with no advancement check; once the window
is at capacity every further recording evaluates the mean of the
updated window (oldest entry evicted) and the window is cleared exactly
when the mean reaches the threshold and the phase advances - otherwise
it stays full. -/
theorem shaping_c6 (env : EnvState) (ph mnr : ℕ) (sd th : ℚ) (pw : ℕ)
    (rt : ℚ) (ops : List Op) :
    (run (Shaping.init env ph mnr sd th pw rt) ops).mov_window.length ≤ pw ∧
    (∀ s : ShapingState, s.mov_window.length < s.perf_window → s.curr_ph < 5 →
      Shaping.set_phase s = { s with mov_window := s.mov_window ++ [s.performance] }) ∧
    (∀ s : ShapingState, s.perf_window ≤ s.mov_window.length → s.curr_ph < 5 →
      (Shaping.set_phase s).curr_perf =
        listMean ((s.mov_window ++ [s.performance]).drop 1) ∧
      (s.goal_perf.getD s.curr_ph 0 ≤
          listMean ((s.mov_window ++ [s.performance]).drop 1) →
        (Shaping.set_phase s).mov_window = [] ∧
        (Shaping.set_phase s).curr_ph = s.curr_ph + 1) ∧
      (¬ s.goal_perf.getD s.curr_ph 0 ≤
          listMean ((s.mov_window ++ [s.performance]).drop 1) →
        (Shaping.set_phase s).mov_window = (s.mov_window ++ [s.performance]).drop 1 ∧
        (Shaping.set_phase s).curr_ph = s.curr_ph)) := by
  refine ⟨?_, ?_, ?_⟩
  · have h := run_wlen (Shaping.init env ph mnr sd th pw rt) ops (by simp [Shaping.init])
    rwa [run_perf_window] at h
  · intro s hlen hph
    unfold Shaping.set_phase
    rw [if_pos hph, if_neg (by omega)]
  · intro s hlen hph
    unfold Shaping.set_phase
    rw [if_pos hph, if_pos hlen]
    by_cases hm : s.goal_perf.getD s.curr_ph 0 ≤
        listMean ((s.mov_window ++ [s.performance]).drop 1)
    · rw [if_pos hm]
      exact ⟨rfl, fun _ => ⟨rfl, rfl⟩, fun hc => absurd hm hc⟩
    · rw [if_neg hm]
      exact ⟨rfl, fun hc => absurd hc hm, fun _ => ⟨rfl, rfl⟩⟩

/-- Witness for shaping_c6 at a concrete controller, trace, and window
states below and at capacity. -/
theorem shaping_c6_witness :
    (run (Shaping.init envA 0 3 2 2 1 0) [Op.trial]).mov_window.length ≤ 1 ∧
    Shaping.set_phase (Shaping.init envA 0 3 2 2 1 0) =
      { Shaping.init envA 0 3 2 2 1 0 with mov_window := [0] } ∧
    (Shaping.set_phase (run (Shaping.init envA 0 3 2 2 1 0) [Op.trial])).mov_window =
      [0] := by
  have h := shaping_c6 envA 0 3 2 2 1 0 [Op.trial]
  have hrun : (run (Shaping.init envA 0 3 2 2 1 0) [Op.trial]).mov_window = [0] := by
    norm_num [run, runOp, Shaping.new_trialAux, Shaping.set_phase, Shaping.init,
      envA, listMean, pyInt, Shaping.trialEnvReset, Shaping.changeKeys,
      Shaping.installShort, Shaping.installVar, Shaping.scaleVar, List.foldl]
  have hperf : (run (Shaping.init envA 0 3 2 2 1 0) [Op.trial]).performance = 0 := by
    norm_num [run, runOp, Shaping.new_trialAux, Shaping.set_phase, Shaping.init,
      envA, listMean, pyInt, Shaping.trialEnvReset, Shaping.changeKeys,
      Shaping.installShort, Shaping.installVar, Shaping.scaleVar, List.foldl]
  have hcp : (run (Shaping.init envA 0 3 2 2 1 0) [Op.trial]).curr_ph = 0 := by
    norm_num [run, runOp, Shaping.new_trialAux, Shaping.set_phase, Shaping.init,
      envA, listMean, pyInt, Shaping.trialEnvReset, Shaping.changeKeys,
      Shaping.installShort, Shaping.installVar, Shaping.scaleVar, List.foldl]
  have hgoal : (run (Shaping.init envA 0 3 2 2 1 0) [Op.trial]).goal_perf =
      List.replicate 5 2 := by
    norm_num [run, runOp, Shaping.new_trialAux, Shaping.set_phase, Shaping.init,
      envA, listMean, pyInt, Shaping.trialEnvReset, Shaping.changeKeys,
      Shaping.installShort, Shaping.installVar, Shaping.scaleVar, List.foldl]
  have hpw : (run (Shaping.init envA 0 3 2 2 1 0) [Op.trial]).perf_window = 1 :=
    run_perf_window _ _
  refine ⟨h.1, ?_, ?_⟩
  · have h2 := h.2.1 (Shaping.init envA 0 3 2 2 1 0) (by norm_num [Shaping.init])
      (by norm_num [Shaping.init])
    rw [h2]
    norm_num [Shaping.init]
  · have h3 := h.2.2 (run (Shaping.init envA 0 3 2 2 1 0) [Op.trial])
      (by rw [hrun, hpw]; simp) (by omega)
    have hmean : ¬ (run (Shaping.init envA 0 3 2 2 1 0) [Op.trial]).goal_perf.getD
        (run (Shaping.init envA 0 3 2 2 1 0) [Op.trial]).curr_ph 0 ≤
        listMean (((run (Shaping.init envA 0 3 2 2 1 0) [Op.trial]).mov_window ++
          [(run (Shaping.init envA 0 3 2 2 1 0) [Op.trial]).performance]).drop 1) := by
      rw [hgoal, hcp, hrun, hperf]
      norm_num [listMean]
    have h4 := h3.2.2 hmean
    rw [h4.1, hrun, hperf]
    norm_num

/-- Claim C7, confirmed.  After any new_trial of a reachable controller
that lands in phase 2 or 3, every non-excluded period whose original
descriptor is not constant carries the original parameters scaled by
short_dur over the original first parameter and truncated (Python int,
the quantization used by the source) to a multiple of the environment
time step; non-excluded constant descriptors are forced to the converted
short duration.  Keys are assumed distinct, as they are in a Python
dict. -/
theorem shaping_c7 (env : EnvState) (ph mnr : ℕ) (sd th : ℚ) (pw : ℕ)
    (rt : ℚ) (ops : List Op) (hnd : (env.timing.map Prod.fst).Nodup)
    (h2 : 2 ≤ (Shaping.new_trialAux (run (Shaping.init env ph mnr sd th pw rt) ops)).curr_ph)
    (h4 : (Shaping.new_trialAux (run (Shaping.init env ph mnr sd th pw rt) ops)).curr_ph < 4)
    (k : String) (d : DistDesc)
    (hk : env.timing.lookup k = some d)
    (hck : k ∈ (env.timing.map Prod.fst).dropLast) :
    (d.1 = "constant" →
      (Shaping.new_trialAux (run (Shaping.init env ph mnr sd th pw rt) ops)).env.timing.lookup k =
        some ("constant", [((pyInt (sd * env.dt) : ℤ) : ℚ)])) ∧
    (d.1 ≠ "constant" →
      (Shaping.new_trialAux (run (Shaping.init env ph mnr sd th pw rt) ops)).env.timing.lookup k =
        some (d.1, d.2.map fun n =>
          ((pyInt (n * (((pyInt (sd * env.dt) : ℤ) : ℚ) / d.2.headD 0) / env.dt) : ℤ) : ℚ) * env.dt)) := by
  set s0 := Shaping.init env ph mnr sd th pw rt with hs0
  set sr := run s0 ops with hsr
  set s1 := Shaping.new_trialAux sr with hs1
  have hndr : (sr.ori_periods.map Prod.fst).Nodup := by
    rw [hsr, run_ori, hs0]; exact hnd
  have hW : Winv sr := by
    rw [hsr]
    exact run_Winv s0 ops (by rw [hs0]; exact hnd)
      (by rw [hs0]; exact Winv_init env ph mnr sd th pw rt)
  have hWn : Winv s1 := Winv_nta sr hndr hW
  have hph2 : 2 ≤ (Shaping.set_phase sr).curr_ph := by
    rw [hs1, Shaping.nta_curr_ph] at h2; exact h2
  have hph4 : (Shaping.set_phase sr).curr_ph < 4 := by
    rw [hs1, Shaping.nta_curr_ph] at h4; exact h4
  have hflags : s1.short = true ∧ s1.varEnabled = true := by
    by_cases hreb : sr.short = false ∨ sr.varEnabled = false
    · have hb := Shaping.nta_branch_mid_rebuild sr hph2 hph4 hreb
      exact ⟨hb.2.1, hb.2.2⟩
    · push_neg at hreb
      have hsh : sr.short = true := by
        have := hreb.1; revert this; cases sr.short <;> simp
      have hv : sr.varEnabled = true := by
        have := hreb.2; revert this; cases sr.varEnabled <;> simp
      have hb := Shaping.nta_branch_mid_keep sr hph2 hph4 hsh hv
      exact ⟨hb.2.1, hb.2.2⟩
  have htim : s1.env.timing =
      applyChange s1.ori_periods (Shaping.scaleVar s1.env.dt s1.short_dur) :=
    hWn.2.1 ⟨h2, h4, hflags.1, hflags.2⟩
  have hori1 : s1.ori_periods = env.timing := by
    rw [hs1, Shaping.nta_ori_periods, hsr, run_ori, hs0]; rfl
  have hdt1 : s1.env.dt = env.dt := by
    rw [hs1, Shaping.nta_env_dt, hsr, run_env_dt, hs0]; rfl
  have hsd1 : s1.short_dur = ((pyInt (sd * env.dt) : ℤ) : ℚ) := by
    rw [hs1, Shaping.nta_short_dur, hsr, run_short_dur, hs0]; rfl
  rw [hori1, hdt1, hsd1] at htim
  have hlook := lookup_applyChange env.timing
    (Shaping.scaleVar env.dt ((pyInt (sd * env.dt) : ℤ) : ℚ)) k hck d hk
  rw [← htim] at hlook
  constructor
  · intro hc
    rw [hlook]
    simp [Shaping.scaleVar, hc]
  · intro hc
    rw [hlook]
    simp [Shaping.scaleVar, hc]

/-- Claim C8, confirmed.  After any new_trial of a reachable controller
that lands in phase 0 or 1, every non-excluded period of the active
timing is the constant distribution of the converted short duration and
the jitter parameter of the wrapped environment is 0. -/
theorem shaping_c8 (env : EnvState) (ph mnr : ℕ) (sd th : ℚ) (pw : ℕ)
    (rt : ℚ) (ops : List Op) (hnd : (env.timing.map Prod.fst).Nodup)
    (hlt : (Shaping.new_trialAux (run (Shaping.init env ph mnr sd th pw rt) ops)).curr_ph < 2)
    (k : String) (d : DistDesc)
    (hk : env.timing.lookup k = some d)
    (hck : k ∈ (env.timing.map Prod.fst).dropLast) :
    (Shaping.new_trialAux (run (Shaping.init env ph mnr sd th pw rt) ops)).env.timing.lookup k =
      some ("constant", [((pyInt (sd * env.dt) : ℤ) : ℚ)]) ∧
    (Shaping.new_trialAux (run (Shaping.init env ph mnr sd th pw rt) ops)).env.sigma_dt = 0 := by
  set s0 := Shaping.init env ph mnr sd th pw rt with hs0
  set sr := run s0 ops with hsr
  set s1 := Shaping.new_trialAux sr with hs1
  have hndr : (sr.ori_periods.map Prod.fst).Nodup := by
    rw [hsr, run_ori, hs0]; exact hnd
  have hW : Winv sr := by
    rw [hsr]
    exact run_Winv s0 ops (by rw [hs0]; exact hnd)
      (by rw [hs0]; exact Winv_init env ph mnr sd th pw rt)
  have hWn : Winv s1 := Winv_nta sr hndr hW
  have hphlt : (Shaping.set_phase sr).curr_ph < 2 := by
    rw [hs1, Shaping.nta_curr_ph] at hlt; exact hlt
  have hfacts : s1.short = true ∧ s1.env.sigma_dt = 0 := by
    cases hsh : sr.short with
    | false =>
      have hb := Shaping.nta_branch_lt2_rebuild sr hphlt hsh
      exact ⟨hb.2.1, hb.2.2.2⟩
    | true =>
      have hb := Shaping.nta_branch_lt2_keep sr hphlt hsh
      exact ⟨by rw [hb.2.1, hsh], hb.2.2.2⟩
  have htim : s1.env.timing =
      applyChange s1.ori_periods (fun _ => ("constant", [s1.short_dur])) :=
    hWn.1 ⟨hlt, hfacts.1⟩
  have hori1 : s1.ori_periods = env.timing := by
    rw [hs1, Shaping.nta_ori_periods, hsr, run_ori, hs0]; rfl
  have hsd1 : s1.short_dur = ((pyInt (sd * env.dt) : ℤ) : ℚ) := by
    rw [hs1, Shaping.nta_short_dur, hsr, run_short_dur, hs0]; rfl
  rw [hori1, hsd1] at htim
  have hlook := lookup_applyChange env.timing
    (fun _ => ("constant", [((pyInt (sd * env.dt) : ℤ) : ℚ)])) k hck d hk
  rw [← htim] at hlook
  exact ⟨hlook, hfacts.2⟩

/-- Witness for shaping_c7: a concrete phase 2 controller scales the
uniform stimulus period of envA from [3, 5] to [20, 30]. -/
theorem shaping_c7_witness :
    (Shaping.new_trialAux (run (Shaping.init envA 2 3 2 (4/5) 5 0) [])).env.timing.lookup
        "stimulus" = some ("uniform", [20, 30]) := by
  have h := shaping_c7 envA 2 3 2 (4/5) 5 0 []
    (by simp [envA])
    (by norm_num [run, runOp, Shaping.new_trialAux, Shaping.set_phase, Shaping.init,
      envA, listMean, pyInt, Shaping.trialEnvReset, Shaping.changeKeys,
      Shaping.installShort, Shaping.installVar, Shaping.scaleVar, List.foldl])
    (by norm_num [run, runOp, Shaping.new_trialAux, Shaping.set_phase, Shaping.init,
      envA, listMean, pyInt, Shaping.trialEnvReset, Shaping.changeKeys,
      Shaping.installShort, Shaping.installVar, Shaping.scaleVar, List.foldl])
    "stimulus" ("uniform", [3, 5])
    (by simp [envA, List.lookup])
    (by simp [envA])
  have h2 := h.2 (by simp)
  rw [h2]
  norm_num [pyInt, envA]

/-- Witness for shaping_c8: a concrete phase 0 controller forces the
fixation period of envA to the constant short duration 20 and zeroes
the jitter. -/
theorem shaping_c8_witness :
    (Shaping.new_trialAux (run (Shaping.init envA 0 3 2 (4/5) 5 0) [])).env.timing.lookup
        "fixation" = some ("constant", [20]) ∧
    (Shaping.new_trialAux (run (Shaping.init envA 0 3 2 (4/5) 5 0) [])).env.sigma_dt = 0 := by
  have h := shaping_c8 envA 0 3 2 (4/5) 5 0 []
    (by simp [envA])
    (by norm_num [run, runOp, Shaping.new_trialAux, Shaping.set_phase, Shaping.init,
      envA, listMean, pyInt, Shaping.trialEnvReset, Shaping.changeKeys,
      Shaping.installShort, Shaping.installVar, Shaping.scaleVar, List.foldl])
    "fixation" ("constant", [3])
    (by simp [envA, List.lookup])
    (by simp [envA])
  refine ⟨?_, h.2⟩
  rw [h.1]
  norm_num [pyInt, envA]

/-- Claim C2, counterexample.  At phase 4 a wrapped reward of -1 is
returned as 0: the delegated branch floors the reward at 0 for every
phase below 5, so the reward does not pass through unmodified. -/
theorem shaping_c2_counterexample :
    (Shaping.init envA 4 3 2 (4/5) 1000 0).curr_ph = 4 ∧
    respNeg.reward = -1 ∧
    (Shaping.step (Shaping.init envA 4 3 2 (4/5) 1000 0) 0 respNeg).2.reward = 0 := by
  refine ⟨rfl, rfl, ?_⟩
  norm_num [Shaping.step, Shaping.init, envA, respNeg]

/-- Claim C2, amended.  At phase 4 stepping is delegated and the done
flag, the new_trial flag and the reported performance pass through
unmodified; the reward passes through floored at 0 (so it is unmodified
exactly when the wrapped reward is non-negative). -/
theorem shaping_c2 (s : ShapingState) (a : ℕ) (resp : EnvResp)
    (h : s.curr_ph = 4) :
    (Shaping.step s a resp).2.reward = max resp.reward 0 ∧
    (Shaping.step s a resp).2.done = resp.done ∧
    (Shaping.step s a resp).2.new_trial = resp.new_trial ∧
    (Shaping.step s a resp).2.info_perf = resp.info_perf ∧
    (0 ≤ resp.reward → (Shaping.step s a resp).2.reward = resp.reward) := by
  have hn2 : ¬ s.curr_ph < 2 := by omega
  have h5 : s.curr_ph < 5 := by omega
  unfold Shaping.step
  rw [if_neg hn2]
  dsimp only
  rw [if_pos h5]
  split_ifs with hb <;>
    exact ⟨rfl, rfl, by simp [hb], rfl, fun hr => by rw [max_eq_left hr]⟩

/-- Witness for shaping_c2 at a concrete phase 4 controller. -/
theorem shaping_c2_witness :
    (Shaping.step (Shaping.init envA 4 3 2 (4/5) 1000 0) 0 respB).2.reward =
      max respB.reward 0 ∧
    (Shaping.step (Shaping.init envA 4 3 2 (4/5) 1000 0) 0 respB).2.done = respB.done ∧
    (Shaping.step (Shaping.init envA 4 3 2 (4/5) 1000 0) 0 respB).2.new_trial =
      respB.new_trial ∧
    (Shaping.step (Shaping.init envA 4 3 2 (4/5) 1000 0) 0 respB).2.info_perf =
      respB.info_perf ∧
    (0 ≤ respB.reward →
      (Shaping.step (Shaping.init envA 4 3 2 (4/5) 1000 0) 0 respB).2.reward =
        respB.reward) :=
  shaping_c2 (Shaping.init envA 4 3 2 (4/5) 1000 0) 0 respB rfl

/-- A suppressed boundary in lowBoundary forces the reward to 0 (the
phase 1 override is the only way the boundary flag comes back false). -/
theorem lowBoundary_suppressed (s : ShapingState) (a : ℕ) (r : ℚ)
    (h : (Shaping.lowBoundary s a r).2.2 = false) :
    (Shaping.lowBoundary s a r).2.1 = 0 := by
  unfold Shaping.lowBoundary Shaping.count at h ⊢
  dsimp only at h ⊢
  split_ifs at h ⊢ <;> simp_all

/-- Claim C3, counterexample.  At phase 2 a wrapped reward of -1 is
returned as 0, which is strictly greater than the wrapped reward: the
flooring raises negative base rewards, so the returned reward is not
always bounded by the base reward. -/
theorem shaping_c3_counterexample :
    ¬ ((Shaping.step (Shaping.init envA 2 3 2 (4/5) 1000 0) 0 respNeg).2.reward ≤
        respNeg.reward) := by
  norm_num [Shaping.step, Shaping.init, envA, respNeg]

/-- Bound on the reward produced at a low phase boundary. -/
theorem lowBoundary_reward_le (s : ShapingState) (a : ℕ) (r B : ℚ)
    (h0 : 0 ≤ B) (hc : s.env.rewards_correct ≤ B) (hr : r ≤ B) :
    (Shaping.lowBoundary s a r).2.1 ≤ B := by
  rcases Shaping.lowBoundary_reward_cases s a r with h | h | h <;> rw [h] <;> assumption

/-- Claim C3, amended.  The reward returned by a step call never exceeds
the maximum of the floored base reward plus the positive part of the
timeout term and the configured correct reward: shaping can raise a
negative base reward to 0, substitute the correct reward at a phase 0
boundary, and add the timeout term, but never otherwise amplifies the
base reward. -/
theorem shaping_c3 (s : ShapingState) (a : ℕ) (resp : EnvResp) :
    (Shaping.step s a resp).2.reward ≤
      max (max resp.reward 0 + max s.r_tmax 0) s.env.rewards_correct := by
  have hB0 : (0:ℚ) ≤ max (max resp.reward 0 + max s.r_tmax 0) s.env.rewards_correct :=
    le_max_of_le_left (add_nonneg (le_max_right _ _) (le_max_right _ _))
  have hBr : max resp.reward 0 ≤
      max (max resp.reward 0 + max s.r_tmax 0) s.env.rewards_correct :=
    le_max_of_le_left (le_add_of_nonneg_right (le_max_right _ _))
  have hBc : s.env.rewards_correct ≤
      max (max resp.reward 0 + max s.r_tmax 0) s.env.rewards_correct :=
    le_max_right _ _
  have hBp : resp.reward ≤
      max (max resp.reward 0 + max s.r_tmax 0) s.env.rewards_correct :=
    le_trans (le_max_left _ _) hBr
  have hBt : s.r_tmax ≤
      max (max resp.reward 0 + max s.r_tmax 0) s.env.rewards_correct :=
    le_max_of_le_left
      (le_add_of_nonneg_of_le (le_max_right resp.reward 0) (le_max_left s.r_tmax 0))
  have hBrt : max resp.reward 0 + s.r_tmax ≤
      max (max resp.reward 0 + max s.r_tmax 0) s.env.rewards_correct :=
    le_max_of_le_left (add_le_add_left (le_max_left _ _) _)
  unfold Shaping.step
  dsimp only
  split_ifs with h1 h2 h3 h4 h5 h6 h7 h8 h9 <;> dsimp only
  · have hz := lowBoundary_suppressed _ a (max resp.reward 0) h3.2
    rw [hz, zero_add]
    simpa using hBt
  · exact absurd rfl h4
  · exact lowBoundary_reward_le _ a _ _ hB0 hBc hBr
  · exact lowBoundary_reward_le _ a _ _ hB0 hBc hBr
  all_goals first | exact hBr | exact hBp | exact hBrt

/-- Claim C4, confirmed.  At a phase 0 trial boundary the wrapper first
updates the streak counter (which increments on a repeated non-neutral
action and resets to 1 when the non-neutral action changes); if the
updated counter exceeds max_num_reps the returned reward and the
reported trial performance are 0, and otherwise the returned reward is
the configured correct reward of the wrapped environment and the
reported performance is 1 - in both cases regardless of the outcome the
wrapped environment reports. -/
theorem shaping_c4 (s : ShapingState) (a : ℕ) (resp : EnvResp)
    (h0 : s.curr_ph = 0) (hnt : resp.new_trial = true) :
    (s.max_num_reps < (Shaping.count s a).counter →
      (Shaping.step s a resp).2.reward = 0 ∧
      (Shaping.step s a resp).2.info_perf = some 0) ∧
    ((Shaping.count s a).counter ≤ s.max_num_reps →
      (Shaping.step s a resp).2.reward = s.env.rewards_correct ∧
      (Shaping.step s a resp).2.info_perf = some 1) ∧
    (a ≠ 0 → a = s.prev_act → (Shaping.count s a).counter = s.counter + 1) ∧
    (a ≠ 0 → a ≠ s.prev_act → (Shaping.count s a).counter = 1) := by
  have h2 : s.curr_ph < 2 := by omega
  have hout : (Shaping.step s a resp).2 =
      ⟨if s.max_num_reps < (Shaping.count s a).counter then 0 else s.env.rewards_correct,
       resp.done, true,
       some (if s.max_num_reps < (Shaping.count s a).counter then 0 else 1)⟩ := by
    unfold Shaping.step Shaping.lowBoundary
    rw [if_pos h2]
    dsimp only
    rw [hnt]
    rw [if_pos rfl, if_pos h0]
    rw [Shaping.count_eq, Shaping.count_eq]
    dsimp only
    split_ifs <;> simp_all
  refine ⟨?_, ?_, ?_, ?_⟩
  · intro hcnt
    rw [hout]
    rw [if_pos hcnt, if_pos hcnt]
    exact ⟨rfl, rfl⟩
  · intro hcnt
    rw [hout]
    rw [if_neg (by omega), if_neg (by omega)]
    exact ⟨rfl, rfl⟩
  · intro ha hpa
    rw [Shaping.count_eq]
    simp [ha, hpa]
    omega
  · intro ha hpa
    rw [Shaping.count_eq]
    simp [ha, hpa]

/-- Witness for shaping_c4: a fresh phase 0 controller rewarded at its
first boundary with the correct reward and performance 1, with the
streak counter reset to 1 by the new action. -/
theorem shaping_c4_witness :
    (Shaping.step (Shaping.init envA 0 3 2 (4/5) 1000 0) 1 respB).2.reward =
      (Shaping.init envA 0 3 2 (4/5) 1000 0).env.rewards_correct ∧
    (Shaping.step (Shaping.init envA 0 3 2 (4/5) 1000 0) 1 respB).2.info_perf = some 1 ∧
    (Shaping.count (Shaping.init envA 0 3 2 (4/5) 1000 0) 1).counter = 1 := by
  have h := shaping_c4 (Shaping.init envA 0 3 2 (4/5) 1000 0) 1 respB rfl rfl
  have hcnt : (Shaping.count (Shaping.init envA 0 3 2 (4/5) 1000 0) 1).counter = 1 :=
    h.2.2.2 (by norm_num) (by norm_num [Shaping.init, envA])
  refine ⟨?_, ?_, hcnt⟩
  · exact (h.2.1 (by rw [hcnt]; norm_num [Shaping.init])).1
  · exact (h.2.1 (by rw [hcnt]; norm_num [Shaping.init])).2





/-- Claim C5, counterexample.  At a phase 1 boundary with trial
performance -1 (non-positive but non-zero) the wrapper does not
suppress the boundary and passes the positive reward through: the
source tests falsiness of env.performance, not non-positivity. -/
theorem shaping_c5_counterexample :
    respC5.env_perf = -1 ∧ respC5.env_perf ≤ 0 ∧ respC5.new_trial = true ∧
    (Shaping.step (Shaping.init envA 1 3 2 (4/5) 1000 0) 1 respC5).2.new_trial = true ∧
    (Shaping.step (Shaping.init envA 1 3 2 (4/5) 1000 0) 1 respC5).2.reward = 5 := by
  refine ⟨rfl, by norm_num [respC5], rfl, ?_, ?_⟩ <;>
    norm_num [Shaping.step, Shaping.lowBoundary, Shaping.count, Shaping.new_trialAux,
      Shaping.set_phase, Shaping.init, envA, respC5, listMean, pyInt,
      Shaping.trialEnvReset, Shaping.changeKeys, Shaping.installShort,
      Shaping.installVar, Shaping.scaleVar]

/-- Claim C5, amended.  At a phase 1 trial boundary where the wrapped
environment reports trial performance exactly 0 (the source tests
falsiness, not non-positivity) and the trial clock has not yet passed
tmax - dt (otherwise the timeout path re-forces a boundary and adds the
r_tmax term), the wrapper suppresses the boundary and returns reward
0. -/
theorem shaping_c5 (s : ShapingState) (a : ℕ) (resp : EnvResp)
    (h1 : s.curr_ph = 1) (hnt : resp.new_trial = true) (hp : resp.env_perf = 0)
    (htime : ¬ (s.env.tmax - s.env.dt < s.env.t + s.env.dt)) :
    (Shaping.step s a resp).2.new_trial = false ∧
    (Shaping.step s a resp).2.reward = 0 := by
  have h2 : s.curr_ph < 2 := by omega
  have hn0 : s.curr_ph ≠ 0 := by omega
  unfold Shaping.step Shaping.lowBoundary
  rw [if_pos h2]
  dsimp only
  rw [hnt, hp]
  rw [if_pos rfl, if_neg hn0]
  dsimp only
  split_ifs <;> simp_all

/-- Witness for shaping_c5: a concrete phase 1 controller suppresses a
boundary reported with performance 0 and zeroes the reward. -/
theorem shaping_c5_witness :
    (Shaping.step (Shaping.init envA 1 3 2 (4/5) 1000 0) 1 respC5z).2.new_trial = false ∧
    (Shaping.step (Shaping.init envA 1 3 2 (4/5) 1000 0) 1 respC5z).2.reward = 0 :=
  shaping_c5 (Shaping.init envA 1 3 2 (4/5) 1000 0) 1 respC5z rfl rfl rfl
    (by norm_num [Shaping.init, envA])



/-- Claim C9, counterexample.  An environment that lacks the required
field tmax is accepted by the constructor: the construction succeeds,
because Shaping.__init__ only reads dt, timing and sigma_dt, so the
missing member surfaces only later (the stepping path reads tmax). -/
theorem shaping_c9_counterexample :
    partialEnvNoTmax.tmax = none ∧
    (Shaping.initAccess partialEnvNoTmax 2).isSome = true :=
  ⟨rfl, rfl⟩

/-- Claim C9, amended.  Construction fails immediately exactly when the
wrapped environment lacks dt, timing or the jitter parameter sigma_dt -
the three members Shaping.__init__ reads; the absence of any other
contract member (tmax, t, t_ind, num_tr, rewards, performance, or the
methods) does not fail construction and can only surface later. -/
theorem shaping_c9 (env : PartialEnv) (sd : ℚ) :
    (Shaping.initAccess env sd).isSome = true ↔
      env.dt.isSome = true ∧ env.timing.isSome = true ∧
      env.sigma_dt.isSome = true := by
  cases env with
  | mk r s n dt tmax t t_ind num_tr timing sigma rc perf =>
    cases dt <;> cases timing <;> cases sigma <;>
      simp [Shaping.initAccess, Option.bind]

/-- Claim C10, confirmed.  Every Shaping.new_trial, in every phase,
resets the wrapped environment performance, t and t_ind to 0 and
increments num_tr by exactly one, and performs these mutations before
delegating to the wrapped environment new_trial: the delegate acts on
the already mutated environment. -/
theorem shaping_c10 (s : ShapingState) (f : EnvState → EnvState) :
    Shaping.new_trial f s =
      { Shaping.new_trialAux s with env := f (Shaping.new_trialAux s).env } ∧
    (Shaping.new_trialAux s).env.performance = 0 ∧
    (Shaping.new_trialAux s).env.t = 0 ∧
    (Shaping.new_trialAux s).env.t_ind = 0 ∧
    (Shaping.new_trialAux s).env.num_tr = s.env.num_tr + 1 := by
  refine ⟨rfl, ?_, ?_, ?_, ?_⟩ <;> simp
